import Mathlib

/-!
Verification development for the hertz-contrib/swagger request dispatcher
(`swagger.go`).  The Go code is shallowly embedded: the `Config` record and
its option setters are plain functions, the regex
`(.*)(index\.html|doc\.json|...)[?|.]*` used by `CustomWrapHandler` is
embedded as `matchUri` (leftmost-first submatch semantics: group 1 is the
longest prefix after which some alternative of the list matches, group 2 is
the first alternative in list order matching there; the model assumes the
URI contains no newline, which HTTP guarantees for request URIs), and the
returned request-handling closure is the state-passing function
`handleRequest` over the once-recorded route prefix (`sync.Once` +
`handler.Prefix`).  The external collaborators (document registry
`swag.ReadDoc`, asset store `handler.FileSystem.OpenFile` + full read into a
buffer, and the template renderer `index.Execute`) are parameters.
-/

namespace HertzSwagger

/-- Go `type Config struct` (swagger.go): the caller-facing configuration. -/
structure Config where
  URL : String
  DocExpansion : String
  InstanceName : String
  Title : String
  DefaultModelsExpandDepth : Int
  DeepLinking : Bool
  PersistAuthorization : Bool
  Oauth2DefaultClientID : String
  SyntaxHighlight : Bool
deriving Repr, DecidableEq

/-- Go `type swaggerConfig struct`: the template-facing record. -/
structure SwaggerConfig where
  URL : String
  DocExpansion : String
  Title : String
  Oauth2RedirectURL : String
  DefaultModelsExpandDepth : Int
  DeepLinking : Bool
  PersistAuthorization : Bool
  Oauth2DefaultClientID : String
  SyntaxHighlight : Bool
deriving Repr, DecidableEq

/-- Go `func (config Config) toSwaggerConfig() swaggerConfig`. -/
def Config.toSwaggerConfig (config : Config) : SwaggerConfig :=
  { URL := config.URL
    DeepLinking := config.DeepLinking
    DocExpansion := config.DocExpansion
    DefaultModelsExpandDepth := config.DefaultModelsExpandDepth
    Oauth2RedirectURL := "`$\x7bwindow.location.protocol\x7d//$\x7bwindow.location.host\x7d$\x7bwindow.location.pathname.split(\x27/\x27).slice(0, window.location.pathname.split(\x27/\x27).length - 1).join(\x27/\x27)\x7d/oauth2-redirect.html`"
    Title := config.Title
    PersistAuthorization := config.PersistAuthorization
    Oauth2DefaultClientID := config.Oauth2DefaultClientID
    SyntaxHighlight := config.SyntaxHighlight }

/-- Go `func SyntaxHighlight(syntaxHighlight bool) func(*Config)`
(mutation of the pointed-to record is modelled as state passing). -/
def SyntaxHighlight (b : Bool) (c : Config) : Config :=
  { c with SyntaxHighlight := b }

/-- Go `func URL(url string) func(*Config)`. -/
def URL (url : String) (c : Config) : Config :=
  { c with URL := url }

/-- Go `func DocExpansion(docExpansion string) func(*Config)`. -/
def DocExpansion (docExpansion : String) (c : Config) : Config :=
  { c with DocExpansion := docExpansion }

/-- Go `func DeepLinking(deepLinking bool) func(*Config)`. -/
def DeepLinking (deepLinking : Bool) (c : Config) : Config :=
  { c with DeepLinking := deepLinking }

/-- Go `func DefaultModelsExpandDepth(depth int) func(*Config)`. -/
def DefaultModelsExpandDepth (depth : Int) (c : Config) : Config :=
  { c with DefaultModelsExpandDepth := depth }

/-- Go `func InstanceName(name string) func(*Config)`. -/
def InstanceName (name : String) (c : Config) : Config :=
  { c with InstanceName := name }

/-- Go `func PersistAuthorization(persistAuthorization bool) func(*Config)`. -/
def PersistAuthorization (b : Bool) (c : Config) : Config :=
  { c with PersistAuthorization := b }

/-- Go `func Oauth2DefaultClientID(oauth2DefaultClientID string) func(*Config)`. -/
def Oauth2DefaultClientID (id : String) (c : Config) : Config :=
  { c with Oauth2DefaultClientID := id }

/-- The eight exported option-application functions of swagger.go, as a
closed enumeration (one constructor per setter, carrying its argument). -/
inductive ConfigOption where
  | setSyntaxHighlight (b : Bool)
  | setURL (s : String)
  | setDocExpansion (s : String)
  | setDeepLinking (b : Bool)
  | setDefaultModelsExpandDepth (n : Int)
  | setInstanceName (s : String)
  | setPersistAuthorization (b : Bool)
  | setOauth2DefaultClientID (s : String)
deriving Repr, DecidableEq

/-- Applying one option function to a configuration (the loop body of
`for _, c := range options { c(&config) }` in `WrapHandler`). -/
def ConfigOption.apply : ConfigOption → Config → Config
  | .setSyntaxHighlight b => SyntaxHighlight b
  | .setURL s => URL s
  | .setDocExpansion s => DocExpansion s
  | .setDeepLinking b => DeepLinking b
  | .setDefaultModelsExpandDepth n => DefaultModelsExpandDepth n
  | .setInstanceName s => InstanceName s
  | .setPersistAuthorization b => PersistAuthorization b
  | .setOauth2DefaultClientID s => Oauth2DefaultClientID s

/-- The configuration field an option writes (a tag; two options touch the
same field exactly when their tags agree). -/
def ConfigOption.field : ConfigOption → Nat
  | .setSyntaxHighlight _ => 0
  | .setURL _ => 1
  | .setDocExpansion _ => 2
  | .setDeepLinking _ => 3
  | .setDefaultModelsExpandDepth _ => 4
  | .setInstanceName _ => 5
  | .setPersistAuthorization _ => 6
  | .setOauth2DefaultClientID _ => 7

/-- `swag.Name`, the default document-registry instance name
(swagger.go line 126: `Defaults to swag.Name ("swagger")`). -/
def swagName : String := "swagger"

/-- The default configuration built by `WrapHandler` before options are
applied (swagger.go lines 150-159; `SyntaxHighlight` is Go's zero value). -/
def defaultConfig : Config :=
  { URL := "doc.json"
    DocExpansion := "list"
    InstanceName := swagName
    Title := "Swagger UI"
    DefaultModelsExpandDepth := 1
    DeepLinking := true
    PersistAuthorization := false
    Oauth2DefaultClientID := ""
    SyntaxHighlight := false }

/-- The normalisation `CustomWrapHandler` performs on its config before
serving (swagger.go lines 172-178): empty instance name becomes `swag.Name`,
empty title becomes `"Swagger UI"`. -/
def normalizeConfig (c : Config) : Config :=
  let c1 := if c.InstanceName = "" then { c with InstanceName := swagName } else c
  if c1.Title = "" then { c1 with Title := "Swagger UI" } else c1

/-- The alternatives of the `matcher` regex (swagger.go line 183), in the
order they appear in the alternation. -/
def resourceNames : List String :=
  ["index.html", "doc.json", "favicon-16x16.png", "favicon-32x32.png",
   "/oauth2-redirect.html", "swagger-ui.css", "swagger-ui.css.map",
   "swagger-ui.js", "swagger-ui.js.map", "swagger-ui-bundle.js",
   "swagger-ui-bundle.js.map", "swagger-ui-standalone-preset.js",
   "swagger-ui-standalone-preset.js.map"]

/-- The first alternative (in alternation order) matching at the start of
`s` — backtracking tries the alternatives of group 2 left to right. -/
def firstAltAt (s : List Char) : Option String :=
  resourceNames.find? (fun a => a.data.isPrefixOf s)

/-- Leftmost-first submatch of `(.*)(alt1|...|altN)[?|.]*`: the greedy
`(.*)` makes the engine prefer the latest position at which an alternative
matches, so the recursion tries the tail (later positions) before the
current position.  Returns (group 1 characters, group 2). -/
def findMatchAux : List Char → Option (List Char × String)
  | [] => none
  | c :: rest =>
    match findMatchAux rest with
    | some (pre, alt) => some (c :: pre, alt)
    | none =>
      match firstAltAt (c :: rest) with
      | some alt => some ([], alt)
      | none => none

/-- `matcher.FindStringSubmatch(uri)`: `none` models a failed match
(`len(matches) != 3`); `some (pre, res)` models `matches[1], matches[2]`. -/
def matchUri (s : String) : Option (String × String) :=
  (findMatchAux s.data).map (fun pa => (String.mk pa.1, pa.2))

/-- Go `filepath.Ext`: scan the path from the right; stop at a path
separator; on the first dot return the suffix from that dot.  The first
argument is the not-yet-scanned part reversed, the second the scanned
characters in original order. -/
def extFromRev : List Char → List Char → String
  | [], _ => ""
  | c :: rest, acc =>
    if c = '/' then ""
    else if c = '.' then String.mk ('.' :: acc)
    else extFromRev rest (c :: acc)

/-- Go `filepath.Ext(path)`. -/
def filepathExt (p : String) : String := extFromRev p.data.reverse []

/-- The content-type switch on `filepath.Ext(path)`
(swagger.go lines 205-216); `none` means no header is set. -/
def extContentType (e : String) : Option String :=
  if e = ".html" then some "text/html; charset=utf-8"
  else if e = ".css" then some "text/css; charset=utf-8"
  else if e = ".js" then some "application/javascript"
  else if e = ".png" then some "image/png"
  else if e = ".json" then some "application/json; charset=utf-8"
  else none

/-- Outcome of reading an opened asset to the end (`buf.ReadFrom(f)`):
either the whole content, or a failure part-way through (the bytes read
before the failure stay in the local buffer and are never written). -/
inductive ReadResult where
  | ok (content : String)
  | readErrAfter (buffered : String)
deriving Repr, DecidableEq

/-- An HTTP response as the handler determines it: status code, the
Content-Type header it set (if any), and the body bytes it wrote. -/
structure Response where
  status : Nat
  contentType : Option String
  body : String
deriving Repr, DecidableEq

/-- The `switch path` dispatch (swagger.go lines 218-247) producing the
response for a matched resource name.  `readDoc` is the document registry
(`swag.ReadDoc`, `none` = error), `openFile` the asset store
(`handler.FileSystem.OpenFile` + read, `none` = open error), `render` the
template renderer (`index.Execute` on `config.toSwaggerConfig()`). -/
def dispatch (config : Config) (readDoc : String → Option String)
    (openFile : String → Option ReadResult) (render : SwaggerConfig → String)
    (path : String) : Response :=
  let ct := extContentType (filepathExt path)
  if path = "index.html" then
    ⟨200, ct, render config.toSwaggerConfig⟩
  else if path = "doc.json" then
    match readDoc config.InstanceName with
    | none => ⟨500, ct, ""⟩
    | some doc => ⟨200, ct, doc⟩
  else
    match openFile path with
    | none => ⟨500, ct, ""⟩
    | some (.readErrAfter _) => ⟨500, ct, ""⟩
    | some (.ok content) => ⟨200, ct, content⟩

/-- The request-handling closure returned by `CustomWrapHandler`
(swagger.go lines 185-248), with the `sync.Once`-guarded `handler.Prefix`
as explicit state: `none` = the once-block has not yet run, `some p` = it
ran and recorded `p`.  Non-GET → 405 and return; no regex match → 404 with
`http.StatusText(404)`; otherwise record the prefix on first match only and
dispatch on the captured resource name. -/
def handleRequest (config : Config) (readDoc : String → Option String)
    (openFile : String → Option ReadResult) (render : SwaggerConfig → String)
    (st : Option String) (method uri : String) : Response × Option String :=
  if method ≠ "GET" then (⟨405, none, ""⟩, st)
  else
    match matchUri uri with
    | none => (⟨404, some "text/plain; charset=utf-8", "Not Found"⟩, st)
    | some (pre, path) =>
      (dispatch config readDoc openFile render path,
       match st with
       | none => some pre
       | some p => some p)

/-- Go `func CustomWrapHandler(config *Config, handler *webdav.Handler)`:
normalise the configuration once, then serve with `handleRequest`. -/
def CustomWrapHandler (config : Config) (readDoc : String → Option String)
    (openFile : String → Option ReadResult) (render : SwaggerConfig → String)
    (st : Option String) (method uri : String) : Response × Option String :=
  handleRequest (normalizeConfig config) readDoc openFile render st method uri

/-- Go `func WrapHandler(handler, options...)`: defaults, then the options
applied left to right, then `CustomWrapHandler`. -/
def WrapHandler (options : List ConfigOption) (readDoc : String → Option String)
    (openFile : String → Option ReadResult) (render : SwaggerConfig → String)
    (st : Option String) (method uri : String) : Response × Option String :=
  CustomWrapHandler (options.foldl (fun c o => o.apply c) defaultConfig)
    readDoc openFile render st method uri

example : matchUri "/index.html" = some ("/", "index.html") := by decide
example : matchUri "/notfound" = none := by decide
example : matchUri "/swagger-ui.css.map" = some ("/", "swagger-ui.css") := by decide
example : matchUri "http://x/path/doc.json" = some ("http://x/path/", "doc.json") := by decide
example : filepathExt "doc.json" = ".json" := by decide
example : filepathExt "/oauth2-redirect.html" = ".html" := by decide
example : filepathExt "swagger-ui.css.map" = ".map" := by decide

/-- Appending characters in front of a string that already matches only
lengthens group 1: the greedy scan prefers the match in the tail. -/
theorem findMatchAux_append (l : List Char) {d pre : List Char} {alt : String}
    (h : findMatchAux d = some (pre, alt)) :
    findMatchAux (l ++ d) = some (l ++ pre, alt) := by
  induction l with
  | nil => simpa using h
  | cons c t ih => simp [findMatchAux, ih]

/-- A URI ending in `/doc.json` always matches, capturing everything up to
and including that slash as group 1 and `doc.json` as group 2 (no
alternative can match at a strictly later position, since every proper
suffix of `doc.json` is shorter than every alternative). -/
theorem matchUri_doc_json (p : String) :
    matchUri (p ++ "/doc.json") = some (p ++ "/", "doc.json") := by
  have h := @findMatchAux_append p.data "/doc.json".data ['/'] "doc.json" (by decide)
  unfold matchUri
  rw [show (p ++ "/doc.json").data = p.data ++ "/doc.json".data from rfl, h]
  rfl

/-- A successful `firstAltAt` returns a listed alternative that is a prefix
of the scanned suffix. -/
theorem firstAltAt_sound {s : List Char} {alt : String}
    (h : firstAltAt s = some alt) :
    alt ∈ resourceNames ∧ ∃ t, s = alt.data ++ t := by
  refine ⟨List.mem_of_find?_eq_some h, ?_⟩
  have hp := List.find?_some h
  rw [List.isPrefixOf_iff_prefix] at hp
  obtain ⟨t, ht⟩ := hp
  exact ⟨t, ht.symm⟩

/-- Soundness of the match: a successful match yields a listed resource
name and splits the input as group 1 ++ resource ++ remainder. -/
theorem findMatchAux_sound (l : List Char) : ∀ pre alt,
    findMatchAux l = some (pre, alt) →
    alt ∈ resourceNames ∧ ∃ t, l = pre ++ alt.data ++ t := by
  induction l with
  | nil => intro pre alt h; simp [findMatchAux] at h
  | cons c rest ih =>
    intro pre alt h
    rw [findMatchAux] at h
    cases hr : findMatchAux rest with
    | some pa =>
      obtain ⟨p1, a1⟩ := pa
      rw [hr] at h
      obtain ⟨mem, t, ht⟩ := ih p1 a1 hr
      simp only [Option.some.injEq, Prod.mk.injEq] at h
      obtain ⟨h1, h2⟩ := h
      subst h1; subst h2
      exact ⟨mem, t, by simp [ht]⟩
    | none =>
      rw [hr] at h
      cases hf : firstAltAt (c :: rest) with
      | none => rw [hf] at h; simp at h
      | some a =>
        rw [hf] at h
        simp only [Option.some.injEq, Prod.mk.injEq] at h
        obtain ⟨h1, h2⟩ := h
        subst h1; subst h2
        obtain ⟨mem, t, ht⟩ := firstAltAt_sound hf
        exact ⟨mem, t, by simpa using ht⟩

/-- `matchUri` soundness lifted to strings. -/
theorem matchUri_sound {uri pre res : String}
    (h : matchUri uri = some (pre, res)) :
    res ∈ resourceNames ∧ ∃ t, uri = pre ++ res ++ t := by
  unfold matchUri at h
  cases hf : findMatchAux uri.data with
  | none => rw [hf] at h; simp at h
  | some pa =>
    obtain ⟨p1, a1⟩ := pa
    rw [hf] at h
    simp only [Option.map_some', Option.some.injEq, Prod.mk.injEq] at h
    obtain ⟨h1, h2⟩ := h
    obtain ⟨mem, t, ht⟩ := findMatchAux_sound uri.data p1 a1 hf
    subst h2
    refine ⟨mem, String.mk t, ?_⟩
    apply congrArg String.mk at ht
    rw [show String.mk uri.data = uri from rfl] at ht
    rw [ht, ← h1]
    rfl

/-- C1: for every GET request whose trailing path segment is `doc.json`,
the handler looks up the document registry at the configuration's
(normalised) instance name; a failed lookup yields status 500 with an empty
body, a successful one yields status 200 with a body exactly equal to the
registered document. -/
theorem c1_doc_json_lookup (config : Config) (readDoc : String → Option String)
    (openFile : String → Option ReadResult) (render : SwaggerConfig → String)
    (st : Option String) (p : String) :
    CustomWrapHandler config readDoc openFile render st "GET" (p ++ "/doc.json") =
      ((match readDoc (normalizeConfig config).InstanceName with
        | none => ⟨500, some "application/json; charset=utf-8", ""⟩
        | some doc => ⟨200, some "application/json; charset=utf-8", doc⟩),
       (match st with
        | none => some (p ++ "/")
        | some q => some q)) := by
  have hct : extContentType (filepathExt "doc.json") =
      some "application/json; charset=utf-8" := by decide
  unfold CustomWrapHandler handleRequest
  rw [matchUri_doc_json]
  cases hdoc : readDoc (normalizeConfig config).InstanceName <;> cases st <;>
    simp [dispatch, hdoc, hct]

/-- C2: a GET request whose URI does not match the allow-list regex is
answered 404 with the plain-text status text `Not Found`, and the route
prefix state is untouched. -/
theorem c2_unmatched_404 (config : Config) (readDoc : String → Option String)
    (openFile : String → Option ReadResult) (render : SwaggerConfig → String)
    (st : Option String) (uri : String) (h : matchUri uri = none) :
    CustomWrapHandler config readDoc openFile render st "GET" uri =
      (⟨404, some "text/plain; charset=utf-8", "Not Found"⟩, st) := by
  unfold CustomWrapHandler handleRequest
  rw [h]
  simp

/-- C2 witness: `GET /notfound` is not matched and yields 404. -/
theorem c2_unmatched_404_witness :
    matchUri "/notfound" = none ∧
    CustomWrapHandler defaultConfig (fun _ => none) (fun _ => none) (fun _ => "")
      none "GET" "/notfound" =
      (⟨404, some "text/plain; charset=utf-8", "Not Found"⟩, none) :=
  ⟨by decide, c2_unmatched_404 defaultConfig (fun _ => none) (fun _ => none)
    (fun _ => "") none "/notfound" (by decide)⟩

/-- C3: any request whose method is not GET is answered 405 with no
content-type and no body, the prefix state is untouched, and the result
does not depend on the document registry or the asset store (they are not
consulted). -/
theorem c3_non_get_405 (config : Config) (readDoc : String → Option String)
    (openFile : String → Option ReadResult) (render : SwaggerConfig → String)
    (st : Option String) (method uri : String) (h : method ≠ "GET") :
    CustomWrapHandler config readDoc openFile render st method uri =
      (⟨405, none, ""⟩, st) ∧
    ∀ (readDoc' : String → Option String) (openFile' : String → Option ReadResult),
      CustomWrapHandler config readDoc' openFile' render st method uri =
        CustomWrapHandler config readDoc openFile render st method uri := by
  constructor
  · unfold CustomWrapHandler handleRequest
    rw [if_pos h]
  · intro readDoc' openFile'
    unfold CustomWrapHandler handleRequest
    rw [if_pos h, if_pos h]

/-- C3 witness: a POST to `/index.html` yields 405 untouched state. -/
theorem c3_non_get_405_witness :
    "POST" ≠ "GET" ∧
    CustomWrapHandler defaultConfig (fun _ => none) (fun _ => none) (fun _ => "")
      none "POST" "/index.html" = (⟨405, none, ""⟩, none) :=
  ⟨by decide, (c3_non_get_405 defaultConfig (fun _ => none) (fun _ => none)
    (fun _ => "") none "POST" "/index.html" (by decide)).1⟩

/-- On a GET request with a successful match, the handler's result is the
dispatch of the captured resource name, and the prefix state is written
only if still unset. -/
theorem handleRequest_matched (config : Config) (readDoc : String → Option String)
    (openFile : String → Option ReadResult) (render : SwaggerConfig → String)
    (st : Option String) {uri pre res : String}
    (h : matchUri uri = some (pre, res)) :
    handleRequest config readDoc openFile render st "GET" uri =
      (dispatch config readDoc openFile render res,
       match st with
       | none => some pre
       | some q => some q) := by
  unfold handleRequest
  rw [h]
  simp

/-- The content-type of a dispatched response is always the extension
mapping of the resource name, in every branch. -/
theorem dispatch_contentType (c : Config) (readDoc : String → Option String)
    (openFile : String → Option ReadResult) (render : SwaggerConfig → String)
    (path : String) :
    (dispatch c readDoc openFile render path).contentType =
      extContentType (filepathExt path) := by
  unfold dispatch
  by_cases h1 : path = "index.html"
  · simp [h1]
  · by_cases h2 : path = "doc.json"
    · cases hd : readDoc c.InstanceName <;> simp [h1, h2, hd]
    · cases ho : openFile path with
      | none => simp [h1, h2, ho]
      | some r => cases r <;> simp [h1, h2, ho]

/-- C4: the route prefix is written at most once: when the state is
already set to `p`, any request (matched or not, any method) leaves it at
`p`; from the unset state, a matched GET performs the one one-way
transition to `some pre`. -/
theorem c4_prefix_written_once (config : Config) (readDoc : String → Option String)
    (openFile : String → Option ReadResult) (render : SwaggerConfig → String)
    (p : String) (uri pre res : String)
    (h : matchUri uri = some (pre, res)) :
    (∀ method u,
      (CustomWrapHandler config readDoc openFile render (some p) method u).2 = some p) ∧
    (CustomWrapHandler config readDoc openFile render none "GET" uri).2 = some pre := by
  constructor
  · intro method u
    unfold CustomWrapHandler handleRequest
    by_cases hm : method ≠ "GET"
    · rw [if_pos hm]
    · rw [if_neg hm]
      cases hmu : matchUri u with
      | none => rfl
      | some pa =>
        obtain ⟨a, b⟩ := pa
        rfl
  · rw [CustomWrapHandler, handleRequest_matched _ _ _ _ _ h]

/-- C4 witness: with the prefix recorded as `/pre/`, a later matched GET
leaves it unchanged; from unset, `GET /index.html` records `/`. -/
theorem c4_prefix_written_once_witness :
    matchUri "/index.html" = some ("/", "index.html") ∧
    (CustomWrapHandler defaultConfig (fun _ => none) (fun _ => none) (fun _ => "")
        (some "/pre/") "GET" "/doc.json").2 = some "/pre/" ∧
    (CustomWrapHandler defaultConfig (fun _ => none) (fun _ => none) (fun _ => "")
        none "GET" "/index.html").2 = some "/" :=
  ⟨by decide,
   (c4_prefix_written_once defaultConfig (fun _ => none) (fun _ => none) (fun _ => "")
      "/pre/" "/index.html" "/" "index.html" (by decide)).1 "GET" "/doc.json",
   (c4_prefix_written_once defaultConfig (fun _ => none) (fun _ => none) (fun _ => "")
      "/pre/" "/index.html" "/" "index.html" (by decide)).2⟩

/-- C5: a successful match captures exactly a listed resource name and the
whole text before it as the two groups, and the first matched request
records that group-1 text as the route prefix. -/
theorem c5_captured_groups (config : Config) (readDoc : String → Option String)
    (openFile : String → Option ReadResult) (render : SwaggerConfig → String)
    (uri pre res : String) (h : matchUri uri = some (pre, res)) :
    res ∈ resourceNames ∧ (∃ t, uri = pre ++ res ++ t) ∧
    (CustomWrapHandler config readDoc openFile render none "GET" uri).2 = some pre := by
  obtain ⟨mem, t, ht⟩ := matchUri_sound h
  refine ⟨mem, ⟨t, ht⟩, ?_⟩
  rw [CustomWrapHandler, handleRequest_matched _ _ _ _ _ h]

/-- C5 witness: `GET /api/index.html` captures prefix `/api/` and resource
`index.html`, and records `/api/` as the route prefix. -/
theorem c5_captured_groups_witness :
    matchUri "/api/index.html" = some ("/api/", "index.html") ∧
    ("index.html" ∈ resourceNames ∧
     (∃ t, "/api/index.html" = "/api/" ++ "index.html" ++ t) ∧
     (CustomWrapHandler defaultConfig (fun _ => none) (fun _ => none) (fun _ => "")
        none "GET" "/api/index.html").2 = some "/api/") :=
  ⟨by decide,
   c5_captured_groups defaultConfig (fun _ => none) (fun _ => none) (fun _ => "")
     "/api/index.html" "/api/" "index.html" (by decide)⟩

/-- C6: for every matched GET request the content-type of the response is
exactly the extension mapping of the captured resource name: `.html`,
`.css`, `.js`, `.png`, `.json` map to the five fixed values, and any other
extension (such as `.map`) or a missing one sets no content-type. -/
theorem c6_content_type (config : Config) (readDoc : String → Option String)
    (openFile : String → Option ReadResult) (render : SwaggerConfig → String)
    (st : Option String) (uri pre res : String)
    (h : matchUri uri = some (pre, res)) :
    (CustomWrapHandler config readDoc openFile render st "GET" uri).1.contentType =
      extContentType (filepathExt res) ∧
    extContentType ".html" = some "text/html; charset=utf-8" ∧
    extContentType ".css" = some "text/css; charset=utf-8" ∧
    extContentType ".js" = some "application/javascript" ∧
    extContentType ".png" = some "image/png" ∧
    extContentType ".json" = some "application/json; charset=utf-8" ∧
    extContentType ".map" = none ∧
    extContentType "" = none := by
  refine ⟨?_, by decide, by decide, by decide, by decide, by decide, by decide, by decide⟩
  rw [CustomWrapHandler, handleRequest_matched _ _ _ _ _ h]
  exact dispatch_contentType _ _ _ _ _

/-- C6 witness: `GET /swagger-ui.css` carries `text/css; charset=utf-8`. -/
theorem c6_content_type_witness :
    matchUri "/swagger-ui.css" = some ("/", "swagger-ui.css") ∧
    (CustomWrapHandler defaultConfig (fun _ => none) (fun _ => none) (fun _ => "")
        none "GET" "/swagger-ui.css").1.contentType =
      extContentType (filepathExt "swagger-ui.css") :=
  ⟨by decide,
   (c6_content_type defaultConfig (fun _ => none) (fun _ => none) (fun _ => "")
      none "/swagger-ui.css" "/" "swagger-ui.css" (by decide)).1⟩

/-- C7: a matched GET whose resource is neither `index.html` nor `doc.json`
is served from the asset store: failed open → 500 empty body, failed read →
500 empty body, successful full read → 200 with the content verbatim. -/
theorem c7_asset_store (config : Config) (readDoc : String → Option String)
    (openFile : String → Option ReadResult) (render : SwaggerConfig → String)
    (st : Option String) (uri pre res : String)
    (h : matchUri uri = some (pre, res)) (h1 : res ≠ "index.html")
    (h2 : res ≠ "doc.json") :
    (CustomWrapHandler config readDoc openFile render st "GET" uri).1 =
      (match openFile res with
       | none => ⟨500, extContentType (filepathExt res), ""⟩
       | some (.readErrAfter _) => ⟨500, extContentType (filepathExt res), ""⟩
       | some (.ok content) => ⟨200, extContentType (filepathExt res), content⟩) := by
  rw [CustomWrapHandler, handleRequest_matched _ _ _ _ _ h]
  cases ho : openFile res with
  | none => simp [dispatch, if_neg h1, if_neg h2, ho]
  | some r => cases r <;> simp [dispatch, if_neg h1, if_neg h2, ho]

/-- C7 witness: `GET /favicon-16x16.png` against a store holding bytes
`PNG` yields 200 with those bytes. -/
theorem c7_asset_store_witness :
    matchUri "/favicon-16x16.png" = some ("/", "favicon-16x16.png") ∧
    "favicon-16x16.png" ≠ "index.html" ∧ "favicon-16x16.png" ≠ "doc.json" ∧
    (CustomWrapHandler defaultConfig (fun _ => none)
        (fun _ => some (.ok "PNG")) (fun _ => "")
        none "GET" "/favicon-16x16.png").1 =
      ⟨200, extContentType (filepathExt "favicon-16x16.png"), "PNG"⟩ :=
  ⟨by decide, by decide, by decide,
   c7_asset_store defaultConfig (fun _ => none) (fun _ => some (.ok "PNG"))
     (fun _ => "") none "/favicon-16x16.png" "/" "favicon-16x16.png"
     (by decide) (by decide) (by decide)⟩

/-- C8 counterexample: the claim says a mid-read failure leaves a partial
body in the response; in the code the asset is fully buffered before any
write, so on a read failure the response body is empty (and the status is
500, not 200): here the store yields a read failure after the bytes `PART`
and the response is 500 with an empty body. -/
theorem c8_counterexample :
    (CustomWrapHandler defaultConfig (fun _ => none)
      (fun _ => some (.readErrAfter "PART")) (fun _ => "")
      none "GET" "/swagger-ui.css").1 =
      ⟨500, some "text/css; charset=utf-8", ""⟩ := by decide

/-- C8 (amended): on a mid-read failure while serving an asset, the bytes
read so far stay in the handler's local buffer and are never written: the
response is 500 with an empty body. -/
theorem c8_read_failure_empty_body (config : Config)
    (readDoc : String → Option String) (openFile : String → Option ReadResult)
    (render : SwaggerConfig → String) (st : Option String)
    (uri pre res buffered : String)
    (h : matchUri uri = some (pre, res)) (h1 : res ≠ "index.html")
    (h2 : res ≠ "doc.json")
    (hf : openFile res = some (.readErrAfter buffered)) :
    (CustomWrapHandler config readDoc openFile render st "GET" uri).1 =
      ⟨500, extContentType (filepathExt res), ""⟩ := by
  rw [CustomWrapHandler, handleRequest_matched _ _ _ _ _ h]
  simp [dispatch, if_neg h1, if_neg h2, hf]

/-- C8 amended-theorem witness: concrete read failure after `PART` on
`GET /swagger-ui.js` yields 500 with empty body. -/
theorem c8_read_failure_empty_body_witness :
    matchUri "/swagger-ui.js" = some ("/", "swagger-ui.js") ∧
    (CustomWrapHandler defaultConfig (fun _ => none)
        (fun _ => some (.readErrAfter "PART")) (fun _ => "")
        none "GET" "/swagger-ui.js").1 =
      ⟨500, extContentType (filepathExt "swagger-ui.js"), ""⟩ :=
  ⟨by decide,
   c8_read_failure_empty_body defaultConfig (fun _ => none)
     (fun _ => some (.readErrAfter "PART")) (fun _ => "") none
     "/swagger-ui.js" "/" "swagger-ui.js" "PART"
     (by decide) (by decide) (by decide) (by decide)⟩

/-- C9: option application commutes for options writing distinct fields,
and repeated application to the same field is last-write-wins: applying
`DocExpansion s1` then `DocExpansion s2` leaves `DocExpansion` equal to
`s2`. -/
theorem c9_option_application (o1 o2 : ConfigOption) (h : o1.field ≠ o2.field)
    (c : Config) (s1 s2 : String) :
    o2.apply (o1.apply c) = o1.apply (o2.apply c) ∧
    (DocExpansion s2 (DocExpansion s1 c)).DocExpansion = s2 := by
  refine ⟨?_, rfl⟩
  cases o1 <;> cases o2 <;> first
    | rfl
    | exact absurd rfl h

/-- C9 witness: `URL` and `DocExpansion` commute, and
`DocExpansion "list"` then `DocExpansion "full"` yields `"full"`. -/
theorem c9_option_application_witness :
    (ConfigOption.setURL "u").field ≠ (ConfigOption.setDocExpansion "d").field ∧
    ((ConfigOption.setDocExpansion "d").apply
        ((ConfigOption.setURL "u").apply defaultConfig) =
      (ConfigOption.setURL "u").apply
        ((ConfigOption.setDocExpansion "d").apply defaultConfig) ∧
     (DocExpansion "full" (DocExpansion "list" defaultConfig)).DocExpansion =
       "full") :=
  ⟨by decide,
   c9_option_application (.setURL "u") (.setDocExpansion "d") (by decide)
     defaultConfig "list" "full"⟩

/-- C10: `CustomWrapHandler` normalises the configuration before serving:
an empty instance name becomes `swag.Name` (`"swagger"`), an empty title
becomes `"Swagger UI"`, the normalised instance name is never empty, and
every `doc.json` registry lookup the handler performs uses exactly that
normalised (hence non-empty) instance name. -/
theorem c10_config_normalisation (config : Config)
    (readDoc : String → Option String) (openFile : String → Option ReadResult)
    (render : SwaggerConfig → String) (st : Option String) (p : String) :
    (normalizeConfig config).InstanceName =
      (if config.InstanceName = "" then swagName else config.InstanceName) ∧
    (normalizeConfig config).Title =
      (if config.Title = "" then "Swagger UI" else config.Title) ∧
    (normalizeConfig config).InstanceName ≠ "" ∧
    (CustomWrapHandler config readDoc openFile render st "GET"
        (p ++ "/doc.json")).1 =
      (match readDoc (normalizeConfig config).InstanceName with
       | none => ⟨500, some "application/json; charset=utf-8", ""⟩
       | some doc => ⟨200, some "application/json; charset=utf-8", doc⟩) := by
  have hname : (normalizeConfig config).InstanceName =
      (if config.InstanceName = "" then swagName else config.InstanceName) := by
    unfold normalizeConfig
    by_cases hi : config.InstanceName = "" <;>
      by_cases ht : (if hi' : config.InstanceName = "" then
        ({ config with InstanceName := swagName } : Config).Title = ""
        else config.Title = "") <;> simp_all
  refine ⟨hname, ?_, ?_, ?_⟩
  · unfold normalizeConfig
    by_cases hi : config.InstanceName = "" <;>
      by_cases ht : config.Title = "" <;> simp [hi, ht]
  · rw [hname]
    by_cases hi : config.InstanceName = "" <;> simp [hi, swagName]
  · have hct : extContentType (filepathExt "doc.json") =
        some "application/json; charset=utf-8" := by decide
    rw [CustomWrapHandler, handleRequest_matched _ _ _ _ _ (matchUri_doc_json p)]
    cases hdoc : readDoc (normalizeConfig config).InstanceName <;>
      simp [dispatch, hdoc, hct]

end HertzSwagger
